import Mathlib

/-
  Verification of the msgpack-rpc-lite message correlation and dispatch engine.

  The definitions below are a shallow embedding of the TypeScript source:
   - src/src/index.ts      (current implementation: message model, per-call client, server)
   - src/unnamed/part_000  (persistent-connection client: pending-entry table keyed by
                            data:<msgid> once-listeners, createResponseMessage)
  JavaScript values carried in messages are modelled by the inductive JSVal; JS arrays
  are Lean lists, undefined is an explicit value, functions are opaque tokens.
-/

namespace MsgpackRpcLite

/-- A JavaScript value as it appears in wire messages and handler arguments:
null, undefined, numbers, strings, arrays, opaque function values (identified by a
token), and Error objects carrying a message text. -/
inductive JSVal where
  | null
  | undefined
  | num (n : Int)
  | str (s : String)
  | arr (elems : List JSVal)
  | fn (token : Nat)
  | err (msg : String)

/-- The JS test `typeof object === "function"` (src/src/index.ts line 48). -/
def isFunction : JSVal → Bool
  | .fn _ => true
  | _ => false

/-- The JS test `v === undefined`. -/
def isUndefined : JSVal → Bool
  | .undefined => true
  | _ => false

/-- The JS test `v === k` against a number literal k (used for type tags). -/
def isNum (k : Int) : JSVal → Bool
  | .num n => n == k
  | _ => false

mutual

/-- JS string coercion, as used by the expression `"data:" + msgid`
(src/unnamed/part_000 lines 103 and 190): numbers print their decimal form,
undefined prints undefined, arrays join their elements with commas. -/
def jsToString : JSVal → String
  | .null => "null"
  | .undefined => "undefined"
  | .num n => toString n
  | .str s => s
  | .arr xs => jsListToString xs
  | .fn t => "function " ++ toString t
  | .err m => "Error: " ++ m

/-- JS Array string coercion: the elements joined with commas. -/
def jsListToString : List JSVal → String
  | [] => ""
  | [x] => jsToString x
  | x :: xs => jsToString x ++ "," ++ jsListToString xs

end

/-- `array[array.length - 1]` : the last element, or undefined on an empty array
(src/src/index.ts line 49, `const last = array => array[array.length - 1]`). -/
def lastJS (array : List JSVal) : JSVal := array.getLastD .undefined

/-- `popUnless(array, predicate)` (src/src/index.ts line 50): when the last element
satisfies the predicate it is popped and returned, otherwise the array is unchanged
and undefined (here: none) is returned. Returns (array after, popped element). -/
def popUnless (array : List JSVal) (predicate : JSVal → Bool) :
    List JSVal × Option JSVal :=
  if predicate (lastJS array) then (array.dropLast, some (lastJS array)) else (array, none)

/-- `MAX = Math.pow(2, 32) - 1` (src/src/index.ts line 36). -/
def MAX : Nat := 2 ^ 32 - 1

/-- One step of the correlation id generator (src/src/index.ts lines 35-39):
`next() { return (msgid = (msgid < MAX ? msgid + 1 : 0)); }`. The state is the
stored counter; the returned id equals the new state. -/
def msgidNext (msgid : Nat) : Nat := if msgid < MAX then msgid + 1 else 0

/-- `createMessage(type, method, parameters)` (src/src/index.ts lines 52-57), with
the generator state passed explicitly. A trailing function argument is popped off
the parameter list and returned as the callback; a fresh msgid is allocated for
type 0 only. Returns (wire message, popped callback, generator state after). -/
def createMessage (type : Int) (method : String) (parameters : List JSVal)
    (s : Nat) : List JSVal × Option JSVal × Nat :=
  let popped := popUnless parameters isFunction
  let s' := if type == 0 then msgidNext s else s
  let message :=
    (if type == 0 then [JSVal.num type, JSVal.num (s' : Int)] else [JSVal.num type])
      ++ [JSVal.str method, JSVal.arr popped.1]
  (message, popped.2, s')

/-- The record produced by `parseMessage` (src/src/index.ts lines 59-73 and
src/unnamed/part_000 lines 70-84). Absent fields hold undefined. -/
structure MessageObject where
  error : JSVal
  method : JSVal
  msgid : JSVal
  params : JSVal
  result : JSVal
  type : JSVal

/-- `msg.shift()` : removes and returns the first element (undefined when empty). -/
def shiftJS : List JSVal → JSVal × List JSVal
  | [] => (.undefined, [])
  | x :: xs => (x, xs)

/-- `msg.pop()` : removes and returns the last element (undefined when empty). -/
def popJS (xs : List JSVal) : JSVal × List JSVal :=
  (xs.getLastD .undefined, xs.dropLast)

/-- `parseMessage(message)` (src/src/index.ts lines 59-73): shift the type tag,
then pop params-or-result, method-or-error and msgid from the end, and assign the
named fields according to whether the type tag is 1. -/
def parseMessage (message : List JSVal) : MessageObject :=
  let s1 := shiftJS message
  let type := s1.1
  let p1 := popJS s1.2
  let paramsOrResult := p1.1
  let p2 := popJS p1.2
  let methodOrError := p2.1
  let p3 := popJS p2.2
  let msgid := p3.1
  { error := if isNum 1 type then methodOrError else .undefined
    method := if isNum 1 type then .undefined else methodOrError
    msgid := msgid
    params := if isNum 1 type then .undefined else paramsOrResult
    result := if isNum 1 type then paramsOrResult else .undefined
    type := type }

/-- A pending request entry of the persistent-connection client
(src/unnamed/part_000): a once-listener registered on the client emitter under the
event name data:<msgid>, identified by an opaque listener token. -/
structure Entry where
  name : String
  listener : Nat
deriving DecidableEq

/-- The event name `"data:" + msgid` used to correlate responses
(src/unnamed/part_000 lines 103 and 190). -/
def dataEventName (msgid : JSVal) : String := "data:" ++ jsToString msgid

/-- `emit(name, ...)` over a table of once-listeners: every listener registered
under the event name fires, in registration order, and is removed (Node
EventEmitter once semantics); listeners under other names are untouched. -/
def emitFired (table : List Entry) (name : String) : List Nat :=
  (table.filter (fun e => e.name == name)).map Entry.listener

/-- The once-listener table remaining after `emit(name, ...)`. -/
def emitRemaining (table : List Entry) (name : String) : List Entry :=
  table.filter (fun e => e.name != name)

/-- The inbound data handler installed by the Client constructor
(src/unnamed/part_000 lines 100-104): parse the decoded response and emit
`"data:" + message.msgid`; returns (listener tokens fired, table after). -/
def clientOnData (table : List Entry) (response : List JSVal) :
    List Nat × List Entry :=
  let name := dataEventName (parseMessage response).msgid
  (emitFired table name, emitRemaining table name)

/-- The registration step of Client.send (src/unnamed/part_000 lines 188-193):
`if (request.msgid !== undefined) this.once("data:" + request.msgid, ...)`.
Node EventEmitter appends the new listener after existing ones. -/
def clientSendRegister (table : List Entry) (message : List JSVal)
    (listener : Nat) : List Entry :=
  if isUndefined (parseMessage message).msgid then table
  else table ++ [⟨dataEventName (parseMessage message).msgid, listener⟩]

/-- The two events that can invoke the listeners of a single Client.send call. -/
inductive ClientEvent where
  | writeFinished
  | dataArrived (response : List JSVal)

/-- Listener wiring of one Client.send call (src/unnamed/part_000 lines 182-193):
the write listener is invoked when writeMessage settles; the response listener is
registered under the outgoing message msgid only when that msgid is defined, and
is invoked when an inbound message emitting the same data event name arrives. -/
def sendWiring (message : List JSVal) (respToken writeToken : Nat) :
    ClientEvent → List Nat
  | .writeFinished => [writeToken]
  | .dataArrived response =>
      if isUndefined (parseMessage message).msgid then []
      else if dataEventName (parseMessage response).msgid
              == dataEventName (parseMessage message).msgid then [respToken]
      else []

/-- Outcome of the promise returned by Client.request without trailing callback
(src/src/index.ts lines 112-117): the listener rejects with the error when it is
truthy and resolves with (result, msgid) otherwise. -/
inductive Outcome where
  | resolved (result : JSVal) (msgid : JSVal)
  | rejected (error : JSVal)

/-- JavaScript truthiness of the values representable here (NaN has no
representative): null, undefined, 0 and the empty string are falsy. -/
def jsTruthy : JSVal → Bool
  | .null => false
  | .undefined => false
  | .num n => n != 0
  | .str s => s != ""
  | .arr _ => true
  | .fn _ => true
  | .err _ => true

/-- The client data handler of send (src/src/index.ts lines 171-176) composed
with the promise executor listener of Client.request (lines 112-116):
`const { msgid, error = null, result } = parseMessage(response)` followed by
`error ? reject(error) : resolve([result, msgid])`. -/
def clientHandleResponse (response : List JSVal) : Outcome :=
  let p := parseMessage response
  let error := if isUndefined p.error then JSVal.null else p.error
  if jsTruthy error then .rejected error else .resolved p.result p.msgid

/-- The wire message written by the server completion callback
(src/src/index.ts lines 213-216): `[1, msgid, error, result]`. -/
def serverCallbackWrite (msgid error result : JSVal) : List JSVal :=
  [JSVal.num 1, msgid, error, result]

/-- `util.isError(error)` (src/unnamed/part_000 line 67). -/
def isError : JSVal → Bool
  | .err _ => true
  | _ => false

/-- `createResponseMessage(type, msgid, error, result)` (src/unnamed/part_000
lines 66-68): `[type, msgid, util.isError(error) ? error.message : error,
result]`. -/
def createResponseMessage (type : Int) (msgid error result : JSVal) :
    List JSVal :=
  [JSVal.num type, msgid,
   match error with
   | .err m => .str m
   | e => e,
   result]

/-- One dispatch step of the server connection listener: which handler invocation
happens (method value, params, whether a completion callback is supplied) and
which message, if any, is written immediately to the socket. -/
structure Dispatch where
  handlerCall : Option (JSVal × JSVal × Bool)
  immediateWrite : Option (List JSVal)

/-- The server data handler (src/src/index.ts lines 210-222): parse the inbound
message with `method` defaulting to the empty string, supply a completion
callback exactly when the type tag is not 2, emit to the handler when the method
name is registered, and otherwise write `[1, msgid, "Not Implemented", null]`. -/
def serverOnMessage (eventNames : List String) (message : List JSVal) :
    Dispatch :=
  let p := parseMessage message
  let methodVal := if isUndefined p.method then JSVal.str "" else p.method
  let hasCallback := !(isNum 2 p.type)
  let registered :=
    match methodVal with
    | .str s => eventNames.contains s
    | _ => false
  if registered then
    { handlerCall := some (methodVal, p.params, hasCallback), immediateWrite := none }
  else
    { handlerCall := none
      immediateWrite := some [JSVal.num 1, p.msgid, JSVal.str "Not Implemented", JSVal.null] }

/-- The completion form chosen by Client.request and Client.notify
(src/src/index.ts lines 107-119 and 139-146): the callback branch is taken when
createMessage popped a trailing function, the promise branch otherwise. -/
inductive CompletionForm where
  | viaCallback (f : JSVal)
  | viaPromise

/-- The `if (callback)` branch of Client.request and Client.notify applied to the
callback component returned by createMessage. -/
def callCompletion (type : Int) (method : String) (parameters : List JSVal)
    (s : Nat) : CompletionForm :=
  match (createMessage type method parameters s).2.1 with
  | some f => .viaCallback f
  | none => .viaPromise

/-! Shared helper lemmas about the embedded operations. -/

/-- Shape of parseMessage on a four-element message. -/
theorem parseMessage_four (t i m p : JSVal) :
    parseMessage [t, i, m, p] =
      { type := t, msgid := i,
        method := if isNum 1 t then .undefined else m,
        error := if isNum 1 t then m else .undefined,
        params := if isNum 1 t then .undefined else p,
        result := if isNum 1 t then p else .undefined } := rfl

/-- Shape of parseMessage on a three-element message. -/
theorem parseMessage_three (t m p : JSVal) :
    parseMessage [t, m, p] =
      { type := t, msgid := .undefined,
        method := if isNum 1 t then .undefined else m,
        error := if isNum 1 t then m else .undefined,
        params := if isNum 1 t then .undefined else p,
        result := if isNum 1 t then p else .undefined } := rfl

/-- createMessage at type tag 0 allocates a fresh msgid. -/
theorem createMessage_zero (method : String) (parameters : List JSVal) (s : Nat) :
    createMessage 0 method parameters s =
      ([JSVal.num 0, JSVal.num (msgidNext s : Int), JSVal.str method,
        JSVal.arr (popUnless parameters isFunction).1],
       (popUnless parameters isFunction).2, msgidNext s) := rfl

/-- createMessage at type tag 2 allocates no msgid. -/
theorem createMessage_two (method : String) (parameters : List JSVal) (s : Nat) :
    createMessage 2 method parameters s =
      ([JSVal.num 2, JSVal.str method, JSVal.arr (popUnless parameters isFunction).1],
       (popUnless parameters isFunction).2, s) := rfl

/-- popUnless pops the last element when the predicate holds of it. -/
theorem popUnless_pos (parameters : List JSVal)
    (h : isFunction (lastJS parameters) = true) :
    popUnless parameters isFunction = (parameters.dropLast, some (lastJS parameters)) := by
  unfold popUnless
  rw [if_pos h]

/-- popUnless leaves the array alone when the predicate fails of the last element. -/
theorem popUnless_neg (parameters : List JSVal)
    (h : isFunction (lastJS parameters) = false) :
    popUnless parameters isFunction = (parameters, none) := by
  unfold popUnless
  rw [if_neg]
  simp [h]

/-- The JS last element of a nonempty array is one of its elements. -/
theorem lastJS_mem (a : JSVal) (t : List JSVal) : lastJS (a :: t) ∈ a :: t := by
  unfold lastJS
  rw [List.getLastD_cons]
  exact List.getLastD_mem_cons t a

/-- A parameter list free of function values is not popped. -/
theorem popUnless_no_fn (parameters : List JSVal)
    (h : ∀ v ∈ parameters, isFunction v = false) :
    popUnless parameters isFunction = (parameters, none) := by
  apply popUnless_neg
  cases parameters with
  | nil => rfl
  | cons a t => exact h _ (lastJS_mem a t)

/-- With pairwise distinct event names, the listeners filtered by the name of a
registered entry are exactly that entry. -/
theorem filter_eq_single (table : List Entry) (m : String) (l : Nat)
    (hnd : (table.map Entry.name).Nodup) (hin : Entry.mk m l ∈ table) :
    table.filter (fun e => e.name == m) = [⟨m, l⟩] := by
  induction table with
  | nil => cases hin
  | cons e rest ih =>
      rw [List.map_cons, List.nodup_cons] at hnd
      rcases List.mem_cons.1 hin with he | hrest
      · cases he
        rw [List.filter_cons_of_pos (by simp)]
        have hrest0 : rest.filter (fun e => e.name == m) = [] := by
          rw [List.filter_eq_nil_iff]
          intro x hx hxm
          have hxname : x.name = m := eq_of_beq hxm
          exact hnd.1 (List.mem_map.2 ⟨x, hx, hxname⟩)
        rw [hrest0]
      · have hne : (e.name == m) = false := by
          apply beq_eq_false_iff_ne.2
          intro heq
          exact hnd.1 (by rw [heq]; exact List.mem_map_of_mem Entry.name hrest)
        rw [List.filter_cons_of_neg (by simp [hne])]
        exact ih hnd.2 hrest

/-- With pairwise distinct event names, removing the listeners of a registered
name is erasing that one entry. -/
theorem filter_ne_eq_erase (table : List Entry) (m : String) (l : Nat)
    (hnd : (table.map Entry.name).Nodup) (hin : Entry.mk m l ∈ table) :
    table.filter (fun e => e.name != m) = table.erase ⟨m, l⟩ := by
  induction table with
  | nil => cases hin
  | cons e rest ih =>
      rw [List.map_cons, List.nodup_cons] at hnd
      rcases List.mem_cons.1 hin with he | hrest
      · cases he
        rw [List.erase_cons_head, List.filter_cons_of_neg (by simp)]
        rw [List.filter_eq_self]
        intro x hx
        have : x.name ≠ m := by
          intro heq
          exact hnd.1 (List.mem_map.2 ⟨x, hx, heq⟩)
        simpa using this
      · have hnm : e.name ≠ m := by
          intro heq
          exact hnd.1 (by rw [heq]; exact List.mem_map_of_mem Entry.name hrest)
        have hne : (e == Entry.mk m l) = false := by
          apply beq_eq_false_iff_ne.2
          intro heq
          exact hnm (by rw [heq])
        rw [List.erase_cons_tail (by simp [hne]),
            List.filter_cons_of_pos (by simpa using hnm)]
        rw [ih hnd.2 hrest]

/-- Filtering by a name that is registered nowhere touches nothing. -/
theorem filter_unregistered (table : List Entry) (m : String)
    (hout : m ∉ table.map Entry.name) :
    table.filter (fun e => e.name == m) = [] ∧
    table.filter (fun e => e.name != m) = table := by
  have hne : ∀ e ∈ table, e.name ≠ m := by
    intro e he heq
    exact hout (by rw [← heq]; exact List.mem_map_of_mem Entry.name he)
  constructor
  · rw [List.filter_eq_nil_iff]
    intro e he
    simpa using hne e he
  · rw [List.filter_eq_self]
    intro e he
    simpa using hne e he

/-- One modular step of the generator, for states inside the 32-bit range. -/
theorem msgidNext_mod (s : Nat) (h : s < 2 ^ 32) :
    msgidNext s = (s + 1) % 2 ^ 32 := by
  unfold msgidNext MAX
  split <;> omega

/-- Iterating the generator n times adds n modulo 2^32. -/
theorem msgidNext_iterate (n : Nat) :
    ∀ s, s < 2 ^ 32 → msgidNext^[n] s = (s + n) % 2 ^ 32 := by
  induction n with
  | zero =>
      intro s hs
      simpa using (Nat.mod_eq_of_lt hs).symm
  | succ n ih =>
      intro s hs
      rw [Function.iterate_succ_apply, msgidNext_mod s hs,
        ih _ (Nat.mod_lt _ (by norm_num))]
      omega

/-! Claim theorems. -/

/-- C10: parseMessage is total over well-formed three- and four-element array
messages: a three-element Notification message with tag 2 yields type 2, the
method and the params with msgid left undefined, and a four-element message
assigns all four fields positionally (method/error and params/result selected by
whether the tag is 1). -/
theorem parseMessage_positional (t i m p : JSVal) :
    parseMessage [.num 2, m, p] =
      { type := .num 2, msgid := .undefined, method := m, params := p,
        error := .undefined, result := .undefined } ∧
    parseMessage [t, i, m, p] =
      { type := t, msgid := i,
        method := if isNum 1 t then .undefined else m,
        error := if isNum 1 t then m else .undefined,
        params := if isNum 1 t then .undefined else p,
        result := if isNum 1 t then p else .undefined } :=
  ⟨rfl, rfl⟩

/-- C4: the correlation id generator produces 1, 2, ..., 2^32-1, 0, 1, ...: from
the initial state it returns 1, below the maximum it returns the previous value
plus one, at the maximum it wraps to 0, and 2^32 calls return any in-range state
to itself. -/
theorem msgid_generator_sequence :
    msgidNext 0 = 1 ∧
    (∀ s, s < MAX → msgidNext s = s + 1) ∧
    msgidNext MAX = 0 ∧
    (∀ s, s < 2 ^ 32 → msgidNext^[2 ^ 32] s = s) := by
  refine ⟨by decide, ?_, ?_, ?_⟩
  · intro s hs
    unfold msgidNext
    rw [if_pos hs]
  · unfold msgidNext
    rw [if_neg (lt_irrefl _)]
  · intro s hs
    rw [msgidNext_iterate _ s hs]
    omega

theorem msgid_generator_sequence_witness :
    msgidNext 5 = 6 ∧ msgidNext^[2 ^ 32] 7 = 7 :=
  ⟨msgid_generator_sequence.2.1 5 (by decide),
   msgid_generator_sequence.2.2.2 7 (by decide)⟩

/-- C2 (code evaluation): a Request for an unregistered method is answered with
error Not Implemented and result null without any handler invocation, but a
Notification for an unregistered method, rather than producing no outbound
traffic, also triggers the Not Implemented write, with an undefined msgid. -/
theorem server_unregistered_eval :
    serverOnMessage [] [.num 0, .num 7, .str "foo", .arr []] =
      { handlerCall := none,
        immediateWrite := some [.num 1, .num 7, .str "Not Implemented", .null] } ∧
    serverOnMessage [] [.num 2, .str "foo", .arr []] =
      { handlerCall := none,
        immediateWrite := some [.num 1, .undefined, .str "Not Implemented", .null] } :=
  ⟨rfl, rfl⟩

/-- C7 (code evaluation): a registered Notification is dispatched to its handler
with the params and no completion callback and nothing is written, but an
unregistered Notification nevertheless triggers the Not Implemented write, so the
server does not avoid writing Responses for every inbound Notification. -/
theorem server_notification_eval :
    serverOnMessage ["foo"] [.num 2, .str "foo", .arr [.num 1]] =
      { handlerCall := some (.str "foo", .arr [.num 1], false),
        immediateWrite := none } ∧
    serverOnMessage ["foo"] [.num 2, .str "bar", .arr []] =
      { handlerCall := none,
        immediateWrite := some [.num 1, .undefined, .str "Not Implemented", .null] } :=
  ⟨rfl, rfl⟩

/-- C5 counterexample: the claim that the promise rejects exactly when the error
is non-null fails: a Response carrying the empty string, a non-null error value,
is resolved, not rejected. -/
theorem request_promise_counterexample :
    JSVal.str "" ≠ JSVal.null ∧
    clientHandleResponse [.num 1, .num 42, .str "", .num 5] =
      .resolved (.num 5) (.num 42) :=
  ⟨fun h => JSVal.noConfusion h, rfl⟩

/-- C5 (amended): the promise rejects with the error exactly when the error is
truthy (a nonempty string); a null or empty-string error resolves with the result
and the msgid; in particular a handler completion (null, ok) relayed through the
server completion write resolves the caller with ok and the request id. -/
theorem request_promise_settlement (id res : JSVal) (s : String) (hs : s ≠ "") :
    clientHandleResponse [.num 1, id, .null, res] = .resolved res id ∧
    clientHandleResponse [.num 1, id, .str "", res] = .resolved res id ∧
    clientHandleResponse [.num 1, id, .str s, res] = .rejected (.str s) ∧
    (∀ n : Int, clientHandleResponse (serverCallbackWrite (.num n) .null (.str "ok")) =
      .resolved (.str "ok") (.num n)) := by
  refine ⟨rfl, rfl, ?_, fun n => rfl⟩
  have hb : (s != "") = true := by simpa using hs
  show (if (s != "") = true then Outcome.rejected (.str s)
        else Outcome.resolved res id) = Outcome.rejected (.str s)
  simp [hb]

theorem request_promise_settlement_witness :
    clientHandleResponse [.num 1, .num 3, .null, .null] = .resolved .null (.num 3) ∧
    clientHandleResponse [.num 1, .num 3, .str "bad", .null] = .rejected (.str "bad") ∧
    clientHandleResponse (serverCallbackWrite (.num 9) .null (.str "ok")) =
      .resolved (.str "ok") (.num 9) := by
  have h := request_promise_settlement (.num 3) .null "bad" (by decide)
  exact ⟨h.1, h.2.2.1, h.2.2.2 9⟩

/-- C3: building a Request from a method and a parameter list of wire values (no
function values) and parsing the resulting message returns the params unchanged
and the msgid allocated at build time, which is also the generator value returned
by createMessage. -/
theorem request_roundtrip (method : String) (parameters : List JSVal) (s : Nat)
    (h : ∀ v ∈ parameters, isFunction v = false) :
    parseMessage (createMessage 0 method parameters s).1 =
      { type := .num 0, msgid := .num (msgidNext s : Int),
        method := .str method, params := .arr parameters,
        error := .undefined, result := .undefined } ∧
    (createMessage 0 method parameters s).2.2 = msgidNext s := by
  have hp := popUnless_no_fn parameters h
  constructor
  · rw [createMessage_zero, hp]
    rw [parseMessage_four]
    rfl
  · rw [createMessage_zero]

theorem request_roundtrip_witness :
    parseMessage (createMessage 0 "foo" [.num 1, .num 2, .num 3] 0).1 =
      { type := .num 0, msgid := .num 1, method := .str "foo",
        params := .arr [.num 1, .num 2, .num 3],
        error := .undefined, result := .undefined } ∧
    (createMessage 0 "foo" [.num 1, .num 2, .num 3] 0).2.2 = 1 := by
  have h := request_roundtrip "foo" [.num 1, .num 2, .num 3] 0 (by decide)
  have h1 : msgidNext 0 = 1 := by decide
  rw [h1] at h
  exact ⟨h.1, h.2⟩

/-- C9: a request or notify call uses exactly one completion form, decided by
whether the last parameter is a function: a trailing function is popped (so the
wire message params exclude it) and used as the callback, otherwise the promise
form is chosen and the full parameter list is serialized. -/
theorem completion_form_exclusive (type : Int) (method : String)
    (parameters : List JSVal) (s : Nat) (ht : type = 0 ∨ type = 2) :
    (isFunction (lastJS parameters) = true →
      callCompletion type method parameters s = .viaCallback (lastJS parameters) ∧
      (parseMessage (createMessage type method parameters s).1).params =
        .arr parameters.dropLast) ∧
    (isFunction (lastJS parameters) = false →
      callCompletion type method parameters s = .viaPromise ∧
      (parseMessage (createMessage type method parameters s).1).params =
        .arr parameters) := by
  rcases ht with rfl | rfl
  · constructor
    · intro hf
      rw [callCompletion, createMessage_zero, popUnless_pos parameters hf]
      exact ⟨rfl, by rw [parseMessage_four]; rfl⟩
    · intro hf
      rw [callCompletion, createMessage_zero, popUnless_neg parameters hf]
      exact ⟨rfl, by rw [parseMessage_four]; rfl⟩
  · constructor
    · intro hf
      rw [callCompletion, createMessage_two, popUnless_pos parameters hf]
      exact ⟨rfl, by rw [parseMessage_three]; rfl⟩
    · intro hf
      rw [callCompletion, createMessage_two, popUnless_neg parameters hf]
      exact ⟨rfl, by rw [parseMessage_three]; rfl⟩

theorem completion_form_exclusive_witness :
    callCompletion 0 "m" [.num 1, .fn 0] 0 = .viaCallback (.fn 0) ∧
    (parseMessage (createMessage 0 "m" [.num 1, .fn 0] 0).1).params = .arr [.num 1] ∧
    callCompletion 0 "m" [.num 1] 0 = .viaPromise ∧
    (parseMessage (createMessage 0 "m" [.num 1] 0).1).params = .arr [.num 1] := by
  have h1 := (completion_form_exclusive 0 "m" [.num 1, .fn 0] 0 (Or.inl rfl)).1 (by decide)
  have h2 := (completion_form_exclusive 0 "m" [.num 1] 0 (Or.inl rfl)).2 (by decide)
  exact ⟨h1.1, h1.2, h2.1, h2.2⟩

/-- C6: a notify call builds a message with no msgid, so the send step registers
no pending request entry (the table is unchanged and inbound dispatch is
unaffected), and its completion listener is fired by the outbound write finishing
while no inbound data event ever fires a listener of the call. -/
theorem notify_no_pending (table : List Entry) (method : String)
    (parameters : List JSVal) (s : Nat) (l c : Nat) :
    isUndefined (parseMessage (createMessage 2 method parameters s).1).msgid = true ∧
    clientSendRegister table (createMessage 2 method parameters s).1 l = table ∧
    sendWiring (createMessage 2 method parameters s).1 l c .writeFinished = [c] ∧
    (∀ response, sendWiring (createMessage 2 method parameters s).1 l c
        (.dataArrived response) = []) := by
  have hmsg : (parseMessage (createMessage 2 method parameters s).1).msgid = .undefined := by
    rw [createMessage_two]
    rw [parseMessage_three]
  refine ⟨by rw [hmsg]; rfl, ?_, rfl, ?_⟩
  · rw [clientSendRegister, hmsg]
    rfl
  · intro response
    rw [sendWiring, hmsg]
    rfl

/-- C1: for every decoded inbound Response, the client fires exactly the one
pending entry registered under the data event name of the Response msgid and
discards it from the table (given the invariant that registered names are
pairwise distinct), and a Response whose event name matches no registered entry
fires nothing and leaves the table unchanged. -/
theorem client_response_dispatch (table : List Entry) (response : List JSVal)
    (m : String) (l : Nat)
    (hm : m = dataEventName (parseMessage response).msgid) :
    ((table.map Entry.name).Nodup → Entry.mk m l ∈ table →
      clientOnData table response = ([l], table.erase ⟨m, l⟩)) ∧
    (m ∉ table.map Entry.name → clientOnData table response = ([], table)) := by
  subst hm
  constructor
  · intro hnd hin
    rw [clientOnData, emitFired, emitRemaining,
      filter_eq_single _ _ _ hnd hin, filter_ne_eq_erase _ _ _ hnd hin]
    rfl
  · intro hout
    rw [clientOnData, emitFired, emitRemaining,
      (filter_unregistered _ _ hout).1, (filter_unregistered _ _ hout).2]
    rfl

theorem client_response_dispatch_witness :
    clientOnData [⟨"data:1", 10⟩, ⟨"data:2", 20⟩]
        [.num 1, .num 2, .null, .str "ok"] = ([20], [⟨"data:1", 10⟩]) ∧
    clientOnData [⟨"data:1", 10⟩] [.num 1, .num 5, .null, .str "ok"] =
      ([], [⟨"data:1", 10⟩]) := by
  have h1 := (client_response_dispatch [⟨"data:1", 10⟩, ⟨"data:2", 20⟩]
    [.num 1, .num 2, .null, .str "ok"] "data:2" 20 (by decide)).1
    (by decide) (by decide)
  have h2 := (client_response_dispatch [⟨"data:1", 10⟩]
    [.num 1, .num 5, .null, .str "ok"] "data:5" 0 (by decide)).2 (by decide)
  exact ⟨h1.trans (by decide), h2⟩

/-- C8: for every handler completion value in the contract domain (null, a plain
string, or an error-object value), the Response built from it carries an error
field that is either null or a string; an error object contributes exactly its
message text, and null or a plain string passes through verbatim. -/
theorem response_error_stringified (msgid result error : JSVal)
    (h : error = .null ∨ (∃ s, error = .str s) ∨ (∃ m, error = .err m)) :
    ∃ e, createResponseMessage 1 msgid error result = [.num 1, msgid, e, result] ∧
      (e = .null ∨ ∃ s, e = .str s) ∧
      (∀ m, error = .err m → e = .str m) ∧
      (∀ s, error = .str s → e = .str s) ∧
      (error = .null → e = .null) := by
  rcases h with h | ⟨s, h⟩ | ⟨m, h⟩ <;> subst h
  · refine ⟨.null, rfl, Or.inl rfl, ?_, ?_, ?_⟩
    · intro m hm
      cases hm
    · intro t ht
      cases ht
    · intro _
      rfl
  · refine ⟨.str s, rfl, Or.inr ⟨s, rfl⟩, ?_, ?_, ?_⟩
    · intro m hm
      cases hm
    · intro t ht
      exact ht
    · intro hn
      cases hn
  · refine ⟨.str m, rfl, Or.inr ⟨m, rfl⟩, ?_, ?_, ?_⟩
    · intro t ht
      injection ht with hh
      rw [hh]
    · intro t ht
      cases ht
    · intro hn
      cases hn

theorem response_error_stringified_witness :
    createResponseMessage 1 (.num 4) (.err "boom") .null =
      [.num 1, .num 4, .str "boom", .null] := by
  obtain ⟨e, he, _, hm, _, _⟩ :=
    response_error_stringified (.num 4) .null (.err "boom")
      (Or.inr (Or.inr ⟨"boom", rfl⟩))
  rw [he, hm "boom" rfl]

end MsgpackRpcLite
